import Mathlib

/-!
# Verification of the Narrative Engine of `adventure_game.py`

Shallow embedding of the scene graph, session state, intent-resolution
chain and drive loop of `src/server/src/adventure_game.py`
(`TextAdventureGame`), together with theorems settling the frozen claims
about the natural-language specification.

Modelling conventions:
* Player input (`input()` lines) is an explicit list of strings threaded
  through every operation; an exhausted list models a program that would
  block forever waiting for input, and is reported as `none`.
* The OpenAI classification collaborator is an oracle
  `llm : List String → String → LLMResult` mapping the option list and
  the raw utterance to either an exception (`failure`, the `except`
  branch of `process_user_input_with_llm`) or a reply string.
* Python `int(...)` parsing is modelled by `parseInt` (decimal digits
  with optional sign); `str.split()` by `splitWords` (split on
  whitespace, dropping empty pieces); `word.isdigit()` together with
  `int(word)` by `parseDigits` (nonempty, all decimal digits). These
  are defined here by structural recursion over `String.data` so that
  every operation of the model evaluates inside the kernel.
* The unused `inventory` and `relationships` fields of `game_state` are
  omitted; `visited_locations` (a Python `set`) is a duplicate-free list
  in insertion order, `choices_made` (a Python `dict`) an association
  list updated in place.
-/

/-- `SceneType` enum of `adventure_game.py`. -/
inductive SceneType where
  | INTRO
  | SCENE_1
  | SCENE_1_MORE_INFO
  | SCENE_2_RIDGE
  | SCENE_2_LAVA
  | SCENE_3
  | SCENE_3_NEGOTIATE
  | FINAL_RESTORE
  | FINAL_SHATTER
  | FINAL_NEGOTIATE
  | END
  deriving DecidableEq, Repr

/-- The `.value` string of each `SceneType` member. -/
def sceneValue : SceneType → String
  | .INTRO => "intro"
  | .SCENE_1 => "scene_1"
  | .SCENE_1_MORE_INFO => "scene_1_more_info"
  | .SCENE_2_RIDGE => "scene_2_ridge"
  | .SCENE_2_LAVA => "scene_2_lava"
  | .SCENE_3 => "scene_3"
  | .SCENE_3_NEGOTIATE => "scene_3_negotiate"
  | .FINAL_RESTORE => "final_scene_restore"
  | .FINAL_SHATTER => "final_scene_shatter"
  | .FINAL_NEGOTIATE => "final_scene_negotiate"
  | .END => "end"

/-- `ChoiceCategory` enum of `adventure_game.py`. -/
inductive ChoiceCategory where
  | PATH
  | ANSWER
  | ACTION
  | NEGOTIATION
  | PLAY_AGAIN
  deriving DecidableEq, Repr

/-- `EndingType` enum of `adventure_game.py`. -/
inductive EndingType where
  | RESTORATION
  | SACRIFICE
  | HARMONY
  | UNKNOWN
  deriving DecidableEq, Repr

/-- Outcome of one call to the OpenAI classification collaborator:
either the API call raised (the `except Exception` branch) or it
returned a reply whose content is the given string. -/
inductive LLMResult where
  | failure
  | reply (content : String)
  deriving DecidableEq, Repr

/-- The classification environment of `TextAdventureGame.__init__`:
`use_llm` says whether an API key was configured; `llm` is the
collaborator, consulted with the option list and the raw utterance. -/
structure Env where
  use_llm : Bool
  llm : List String → String → LLMResult

/-- The session state `self.game_state` plus `self.story_progress`
(the unused `inventory`/`relationships` fields are omitted). -/
structure GameState where
  visited_locations : List String
  choices_made : List (String × Nat)
  game_over : Bool
  story_progress : Nat
  deriving DecidableEq, Repr

/-- Python `set.add`: insert a string if absent (insertion order kept). -/
def setAdd (s : List String) (x : String) : List String :=
  if s.contains x then s else s ++ [x]

/-- Python `dict[k] = v`: update in place if the key exists, else append. -/
def dictSet : List (String × Nat) → String → Nat → List (String × Nat)
  | [], k, v => [(k, v)]
  | (k', v') :: rest, k, v =>
      if k' = k then (k, v) :: rest else (k', v') :: dictSet rest k v

/-- Python `k in d` / `d[k]`: lookup in the association list. -/
def dictGet : List (String × Nat) → String → Option Nat
  | [], _ => none
  | (k', v') :: rest, k => if k' = k then some v' else dictGet rest k

/-- The state built by `TextAdventureGame.__init__`: empty visited set,
empty choices dict, `game_over = False`, `story_progress = 0`. -/
def initGameState : GameState :=
  { visited_locations := []
    choices_made := []
    game_over := false
    story_progress := 0 }

/-- `TextAdventureGame.update_game_state`: record the visit, record the
choice when one was made, and advance `story_progress`. -/
def update_game_state (st : GameState) (scene : SceneType)
    (choice : Option Nat) : GameState :=
  { st with
    visited_locations := setAdd st.visited_locations (sceneValue scene)
    choices_made :=
      match choice with
      | none => st.choices_made
      | some c => dictSet st.choices_made (sceneValue scene) c
    story_progress := st.story_progress + 1 }

/-- `TextAdventureGame.determine_ending_type`: the ending is read off
the choice recorded for `SceneType.SCENE_3`. -/
def determine_ending_type (st : GameState) : EndingType :=
  match dictGet st.choices_made (sceneValue SceneType.SCENE_3) with
  | some choice =>
      if choice = 1 then EndingType.RESTORATION
      else if choice = 2 then EndingType.SACRIFICE
      else EndingType.HARMONY
  | none => EndingType.UNKNOWN

/-- Value accumulator for `parseDigits`: consume decimal digits,
failing on the first non-digit character. -/
def parseDigitsAux : Nat → List Char → Option Nat
  | acc, [] => some acc
  | acc, c :: cs =>
      if c.isDigit then parseDigitsAux (10 * acc + (c.toNat - 48)) cs
      else none

/-- Python `word.isdigit()` combined with `int(word)`: succeeds exactly
on a nonempty string of decimal digits, returning its value. -/
def parseDigits : List Char → Option Nat
  | [] => none
  | c :: cs => parseDigitsAux 0 (c :: cs)

/-- Python `int(s)` on a raw input line: an optional sign followed by a
nonempty digit string. -/
def parseInt (s : String) : Option Int :=
  match s.data with
  | '-' :: cs => (parseDigits cs).map (fun n => -(n : Int))
  | '+' :: cs => (parseDigits cs).map (fun n => (n : Int))
  | cs => (parseDigits cs).map (fun n => (n : Int))

/-- Word accumulator for `splitWords`. -/
def splitWordsAux : List Char → List Char → List String
  | cur, [] =>
      match cur with
      | [] => []
      | _ => [String.mk cur]
  | cur, c :: cs =>
      if c.isWhitespace then
        match cur with
        | [] => splitWordsAux [] cs
        | _ => String.mk cur :: splitWordsAux [] cs
      else splitWordsAux (cur ++ [c]) cs

/-- Python `str.split()`: split on whitespace, dropping empty pieces. -/
def splitWords (s : String) : List String :=
  splitWordsAux [] s.data

/-- The token scan of `process_user_input_with_llm`: the first
whitespace-separated word of the reply that is all digits
(`word.isdigit()`) and whose value lies in `1..n`. Digit words out of
range are skipped. -/
def firstValidToken (n : Nat) : List String → Option Nat
  | [] => none
  | w :: ws =>
      match parseDigits w.data with
      | some k => if 1 ≤ k ∧ k ≤ n then some k else firstValidToken n ws
      | none => firstValidToken n ws

/-- `TextAdventureGame.get_numbered_choice`: read lines until one parses
(`int(...)`) to a number in `1..len(options)`; return it with the
unconsumed input. `none` models an input source that never supplies a
valid number (the Python loop would never return). -/
def get_numbered_choice (options : List String) :
    List String → Option (Nat × List String)
  | [] => none
  | s :: rest =>
      match parseInt s with
      | some k =>
          if 1 ≤ k ∧ k ≤ (options.length : Int) then some (k.toNat, rest)
          else get_numbered_choice options rest
      | none => get_numbered_choice options rest

/-- `TextAdventureGame.process_user_input_with_llm` after the API call
produced `result`: on an exception, fall back to
`get_numbered_choice`; on a reply, return its first in-range digit
token, defaulting to option `1` when there is none. -/
def process_user_input_with_llm (options : List String)
    (result : LLMResult) (inputs : List String) :
    Option (Nat × List String) :=
  match result with
  | .failure => get_numbered_choice options inputs
  | .reply content =>
      match firstValidToken options.length (splitWords content) with
      | some k => some (k, inputs)
      | none => some (1, inputs)

/-- Result of `TextAdventureGame.get_user_choice`: the 1-based chosen
index, the unconsumed input lines, and whether the classification
collaborator was invoked (the API call in
`process_user_input_with_llm` was attempted). -/
structure ChoiceResult where
  choice : Nat
  rest : List String
  invokedLLM : Bool
  deriving DecidableEq, Repr

/-- `TextAdventureGame.get_user_choice`: with `use_llm` the next input
line is taken as a free-form utterance and handed to the collaborator;
otherwise the numbered-choice loop runs. The `category` argument is
threaded exactly as in the source, which never reads it. -/
def get_user_choice (env : Env) (options : List String)
    (category : ChoiceCategory) (inputs : List String) :
    Option ChoiceResult :=
  if env.use_llm then
    match inputs with
    | [] => none
    | u :: rest =>
        match process_user_input_with_llm options (env.llm options u) rest with
        | none => none
        | some (k, rest') => some ⟨k, rest', true⟩
  else
    match get_numbered_choice options inputs with
    | none => none
    | some (k, rest') => some ⟨k, rest', false⟩

/-- Options offered in `scene_1`. -/
def scene_1_options : List String :=
  ["Climb the ridge to search from above.",
   "Enter the lava tube and follow the underground river.",
   "Ask Ahi for more information before deciding."]

/-- Options offered in `scene_1_more_info`. -/
def scene_1_more_info_options : List String :=
  ["Climb the ridge to search from above.",
   "Enter the lava tube and follow the underground river."]

/-- Options offered in `scene_2_ridge`. -/
def scene_2_ridge_options : List String :=
  ["The stars above.",
   "The memory of where they came from.",
   "The help of those they meet along the way."]

/-- Options offered in `scene_2_lava`. -/
def scene_2_lava_options : List String :=
  ["Its blossoms.", "Its roots.", "Its kin."]

/-- Options offered in `scene_3`. -/
def scene_3_options : List String :=
  ["Chant the ancient prayer and restore the seed stone.",
   "Shatter the stone to banish the spirit, risking the island's balance.",
   "Try to negotiate with the Night Fog Spirit."]

/-- Options offered in `scene_3_negotiate`. -/
def scene_3_negotiate_options : List String :=
  ["Offer to establish a new tradition honoring both the lehua and the night fog.",
   "Explain that balance requires all elements, including the night fog, and promise to teach others.",
   "Suggest that taking the stone will only bring more isolation, not the recognition it seeks."]

/-- Options offered in `end_game` for the replay decision. -/
def end_game_options : List String := ["Yes", "No"]

/-- `TextAdventureGame.intro_scene`: narration, one blocking
`input("Press Enter to continue...")`, record the visit, go to
`SCENE_1`. -/
def intro_scene (st : GameState) (inputs : List String) :
    Option (SceneType × GameState × List String) :=
  match inputs with
  | [] => none
  | _ :: rest =>
      some (SceneType.SCENE_1, update_game_state st SceneType.INTRO none, rest)

/-- `TextAdventureGame.scene_1`: resolve a `PATH` choice over
`scene_1_options`, record it, branch `1 ↦ SCENE_2_RIDGE`,
`2 ↦ SCENE_2_LAVA`, otherwise `SCENE_1_MORE_INFO`. -/
def scene_1 (env : Env) (st : GameState) (inputs : List String) :
    Option (SceneType × GameState × List String) :=
  match get_user_choice env scene_1_options ChoiceCategory.PATH inputs with
  | none => none
  | some r =>
      some ((if r.choice = 1 then SceneType.SCENE_2_RIDGE
             else if r.choice = 2 then SceneType.SCENE_2_LAVA
             else SceneType.SCENE_1_MORE_INFO),
            update_game_state st SceneType.SCENE_1 (some r.choice), r.rest)

/-- `TextAdventureGame.scene_1_more_info`: a two-option `PATH` choice;
`1 ↦ SCENE_2_RIDGE`, otherwise `SCENE_2_LAVA`. -/
def scene_1_more_info (env : Env) (st : GameState) (inputs : List String) :
    Option (SceneType × GameState × List String) :=
  match get_user_choice env scene_1_more_info_options ChoiceCategory.PATH inputs with
  | none => none
  | some r =>
      some ((if r.choice = 1 then SceneType.SCENE_2_RIDGE
             else SceneType.SCENE_2_LAVA),
            update_game_state st SceneType.SCENE_1_MORE_INFO (some r.choice), r.rest)

/-- `TextAdventureGame.scene_2_ridge`: the menehune riddle (`ANSWER`
category). The answer only selects dialogue; the scene always
continues to `SCENE_3`. -/
def scene_2_ridge (env : Env) (st : GameState) (inputs : List String) :
    Option (SceneType × GameState × List String) :=
  match get_user_choice env scene_2_ridge_options ChoiceCategory.ANSWER inputs with
  | none => none
  | some r =>
      some (SceneType.SCENE_3,
            update_game_state st SceneType.SCENE_2_RIDGE (some r.choice), r.rest)

/-- `TextAdventureGame.scene_2_lava`: the moʻo wahine riddle (`ANSWER`
category). The answer only selects dialogue; the scene always
continues to `SCENE_3`. -/
def scene_2_lava (env : Env) (st : GameState) (inputs : List String) :
    Option (SceneType × GameState × List String) :=
  match get_user_choice env scene_2_lava_options ChoiceCategory.ANSWER inputs with
  | none => none
  | some r =>
      some (SceneType.SCENE_3,
            update_game_state st SceneType.SCENE_2_LAVA (some r.choice), r.rest)

/-- `TextAdventureGame.scene_3`: the pivotal `ACTION` choice;
`1 ↦ FINAL_RESTORE`, `2 ↦ FINAL_SHATTER`, otherwise
`SCENE_3_NEGOTIATE`. -/
def scene_3 (env : Env) (st : GameState) (inputs : List String) :
    Option (SceneType × GameState × List String) :=
  match get_user_choice env scene_3_options ChoiceCategory.ACTION inputs with
  | none => none
  | some r =>
      some ((if r.choice = 1 then SceneType.FINAL_RESTORE
             else if r.choice = 2 then SceneType.FINAL_SHATTER
             else SceneType.SCENE_3_NEGOTIATE),
            update_game_state st SceneType.SCENE_3 (some r.choice), r.rest)

/-- `TextAdventureGame.scene_3_negotiate`: a `NEGOTIATION` choice that
is recorded but always continues to `FINAL_NEGOTIATE`. -/
def scene_3_negotiate (env : Env) (st : GameState) (inputs : List String) :
    Option (SceneType × GameState × List String) :=
  match get_user_choice env scene_3_negotiate_options ChoiceCategory.NEGOTIATION inputs with
  | none => none
  | some r =>
      some (SceneType.FINAL_NEGOTIATE,
            update_game_state st SceneType.SCENE_3_NEGOTIATE (some r.choice), r.rest)

/-- `TextAdventureGame.final_scene_restore`: narration only; set
`game_over` and return `END`. No choice, no `update_game_state`. -/
def final_scene_restore (st : GameState) (inputs : List String) :
    Option (SceneType × GameState × List String) :=
  some (SceneType.END, { st with game_over := true }, inputs)

/-- `TextAdventureGame.final_scene_shatter`: narration only; set
`game_over` and return `END`. -/
def final_scene_shatter (st : GameState) (inputs : List String) :
    Option (SceneType × GameState × List String) :=
  some (SceneType.END, { st with game_over := true }, inputs)

/-- `TextAdventureGame.final_scene_negotiate`: narration only; set
`game_over` and return `END`. -/
def final_scene_negotiate (st : GameState) (inputs : List String) :
    Option (SceneType × GameState × List String) :=
  some (SceneType.END, { st with game_over := true }, inputs)

/-- `TextAdventureGame.end_game`: print the summary, compute the ending
classification, pose the `PLAY_AGAIN` decision over `["Yes", "No"]`
and return whether the choice was `1`, together with the ending that
was presented. -/
def end_game (env : Env) (st : GameState) (inputs : List String) :
    Option (Bool × EndingType × List String) :=
  match get_user_choice env end_game_options ChoiceCategory.PLAY_AGAIN inputs with
  | none => none
  | some r => some (decide (r.choice = 1), determine_ending_type st, r.rest)

/-- The value of the `current_scene` variable of `run_game`. The Python
dispatch is a chain of `elif`s with a final `else` for values that are
not one of the registered `SceneType` members; `unknown` represents
such an unregistered identifier. Every scene method only ever returns
a registered member, so `unknown` can only be encountered if the drive
loop is started on one. -/
inductive SceneRef where
  | known : SceneType → SceneRef
  | unknown : String → SceneRef
  deriving DecidableEq, Repr

/-- How one playthrough of `run_game`'s inner `while` loop ends.

* `finished`: the loop condition `not game_over` failed — the run ended
  normally after a final scene (the scene variable then holds `END`).
* `endGameRun`: the `END` dispatch branch ran `end_game` (summary and
  replay prompt) and broke with its answer.
* `unknownScene`: the `else` branch reported
  `"Error: Unknown scene ..."` and broke; the post-loop check then
  prints `"Game ended unexpectedly."` and the whole game stops. -/
inductive RunOutcome where
  | finished : GameState → RunOutcome
  | endGameRun : Bool → EndingType → GameState → RunOutcome
  | unknownScene : String → GameState → RunOutcome
  deriving DecidableEq, Repr

/-- The inner `while not self.game_state["game_over"]` loop of
`TextAdventureGame.run_game`, dispatching on `current_scene` exactly
as the `if`/`elif`/`else` chain does. `fuel` bounds the number of
iterations; `none` means the fuel or the input ran out. -/
def runFrom (env : Env) : Nat → SceneRef → GameState → List String →
    Option RunOutcome
  | 0, _, _, _ => none
  | fuel + 1, scene, st, inputs =>
    if st.game_over then
      some (RunOutcome.finished st)
    else
      match scene with
      | .known .INTRO =>
          match intro_scene st inputs with
          | none => none
          | some (n, st', ins') => runFrom env fuel (.known n) st' ins'
      | .known .SCENE_1 =>
          match scene_1 env st inputs with
          | none => none
          | some (n, st', ins') => runFrom env fuel (.known n) st' ins'
      | .known .SCENE_1_MORE_INFO =>
          match scene_1_more_info env st inputs with
          | none => none
          | some (n, st', ins') => runFrom env fuel (.known n) st' ins'
      | .known .SCENE_2_RIDGE =>
          match scene_2_ridge env st inputs with
          | none => none
          | some (n, st', ins') => runFrom env fuel (.known n) st' ins'
      | .known .SCENE_2_LAVA =>
          match scene_2_lava env st inputs with
          | none => none
          | some (n, st', ins') => runFrom env fuel (.known n) st' ins'
      | .known .SCENE_3 =>
          match scene_3 env st inputs with
          | none => none
          | some (n, st', ins') => runFrom env fuel (.known n) st' ins'
      | .known .SCENE_3_NEGOTIATE =>
          match scene_3_negotiate env st inputs with
          | none => none
          | some (n, st', ins') => runFrom env fuel (.known n) st' ins'
      | .known .FINAL_RESTORE =>
          match final_scene_restore st inputs with
          | none => none
          | some (n, st', ins') => runFrom env fuel (.known n) st' ins'
      | .known .FINAL_SHATTER =>
          match final_scene_shatter st inputs with
          | none => none
          | some (n, st', ins') => runFrom env fuel (.known n) st' ins'
      | .known .FINAL_NEGOTIATE =>
          match final_scene_negotiate st inputs with
          | none => none
          | some (n, st', ins') => runFrom env fuel (.known n) st' ins'
      | .known .END =>
          match end_game env st inputs with
          | none => none
          | some (again, ending, _) => some (RunOutcome.endGameRun again ending st)
      | .unknown tag => some (RunOutcome.unknownScene tag st)

/-- The `self.__init__()` call at the top of each iteration of
`run_game`'s outer `while play_again` loop: whatever the previous
run left behind, the next run starts from the freshly constructed
state. -/
def resetForNewRun (_prior : GameState) : GameState := initGameState

/-- One outer iteration of `TextAdventureGame.run_game`: reset the
session state via `__init__` and drive the inner loop from the entry
scene `INTRO`. -/
def run_playthrough (env : Env) (fuel : Nat) (inputs : List String) :
    Option RunOutcome :=
  runFrom env fuel (.known SceneType.INTRO) initGameState inputs

/-- Whether a playthrough ended normally, i.e. the inner loop stopped
because `game_over` was set by a final scene with `current_scene` at
the terminal `END`. -/
def reachedTerminal : Option RunOutcome → Bool
  | some (RunOutcome.finished _) => true
  | _ => false

/-- The ending classification computed from the session state a
normally finished playthrough ends with. -/
def endingOf : Option RunOutcome → Option EndingType
  | some (RunOutcome.finished st) => some (determine_ending_type st)
  | _ => none

/-- The environment `__init__` builds when `OPENAI_API_KEY` is absent:
`use_llm = False`, the collaborator never consulted. -/
def noLLM : Env := ⟨false, fun _ _ => LLMResult.failure⟩

/-- A single input line that the `get_numbered_choice` loop accepts for
the given option set: `int(...)` succeeds and the value is in
`1..len(options)`. -/
def validNumericFor (options : List String) (s : String) : Bool :=
  match parseInt s with
  | some k => decide (1 ≤ k ∧ k ≤ (options.length : Int))
  | none => false

/-- Spec-side condition on a classification collaborator, used to state
the disabled/enabled equivalence (Scenario D): whenever the player's
utterance is the numeral of an in-range index `k` (all of the game's
option sets have at most 3 entries), the classification step of
`process_user_input_with_llm` resolves it to `k` without touching the
numeric-prompt input. -/
def ResolvesNumerals (llm : List String → String → LLMResult) : Prop :=
  ∀ (options : List String) (k : Nat) (inputs : List String),
    1 ≤ k → k ≤ 3 → k ≤ options.length →
    process_user_input_with_llm options (llm options (toString k)) inputs =
      some (k, inputs)

/-- Spec-side description of a sequence of chosen indices that is
admissible from a given scene: following the transition tables of the
scene methods, each successive index is in range for the decision it
meets (3 options at `SCENE_1`, `SCENE_2_*`, `SCENE_3` and
`SCENE_3_NEGOTIATE`, 2 at `SCENE_1_MORE_INFO` and at the `END` replay
prompt). Mirrors the branching of the scene methods; `fuel` matches
the drive loop's step bound. -/
def scriptOK : Nat → SceneRef → List Nat → Bool
  | 0, _, _ => true
  | fuel + 1, scene, ks =>
    match scene with
    | .known .INTRO => scriptOK fuel (.known .SCENE_1) ks
    | .known .SCENE_1 =>
        match ks with
        | [] => true
        | k :: ks' =>
            decide (1 ≤ k) && decide (k ≤ 3) &&
            scriptOK fuel
              (.known (if k = 1 then SceneType.SCENE_2_RIDGE
                       else if k = 2 then SceneType.SCENE_2_LAVA
                       else SceneType.SCENE_1_MORE_INFO)) ks'
    | .known .SCENE_1_MORE_INFO =>
        match ks with
        | [] => true
        | k :: ks' =>
            decide (1 ≤ k) && decide (k ≤ 2) &&
            scriptOK fuel
              (.known (if k = 1 then SceneType.SCENE_2_RIDGE
                       else SceneType.SCENE_2_LAVA)) ks'
    | .known .SCENE_2_RIDGE =>
        match ks with
        | [] => true
        | k :: ks' =>
            decide (1 ≤ k) && decide (k ≤ 3) &&
            scriptOK fuel (.known SceneType.SCENE_3) ks'
    | .known .SCENE_2_LAVA =>
        match ks with
        | [] => true
        | k :: ks' =>
            decide (1 ≤ k) && decide (k ≤ 3) &&
            scriptOK fuel (.known SceneType.SCENE_3) ks'
    | .known .SCENE_3 =>
        match ks with
        | [] => true
        | k :: ks' =>
            decide (1 ≤ k) && decide (k ≤ 3) &&
            scriptOK fuel
              (.known (if k = 1 then SceneType.FINAL_RESTORE
                       else if k = 2 then SceneType.FINAL_SHATTER
                       else SceneType.SCENE_3_NEGOTIATE)) ks'
    | .known .SCENE_3_NEGOTIATE =>
        match ks with
        | [] => true
        | k :: ks' =>
            decide (1 ≤ k) && decide (k ≤ 3) &&
            scriptOK fuel (.known SceneType.FINAL_NEGOTIATE) ks'
    | .known .FINAL_RESTORE => scriptOK fuel (.known SceneType.END) ks
    | .known .FINAL_SHATTER => scriptOK fuel (.known SceneType.END) ks
    | .known .FINAL_NEGOTIATE => scriptOK fuel (.known SceneType.END) ks
    | .known .END =>
        match ks with
        | [] => true
        | k :: _ => decide (1 ≤ k) && decide (k ≤ 2)
    | .unknown _ => true

/-! ## Claims -/

/-- C1, counterexample. With the collaborator configured
(`use_llm = true`), the well-formed numeric input `"2"` for a
three-option set is NOT returned directly: the raw line is handed to
the classification collaborator (`invokedLLM = true`) and the result
follows the collaborator's reply (here `3`), not the typed number. -/
theorem C1_counterexample :
    (get_user_choice ⟨true, fun _ _ => LLMResult.reply "3"⟩ ["a", "b", "c"]
        ChoiceCategory.PATH ["2"]).map ChoiceResult.choice ≠ some 2 ∧
    (get_user_choice ⟨true, fun _ _ => LLMResult.reply "3"⟩ ["a", "b", "c"]
        ChoiceCategory.PATH ["2"]).map ChoiceResult.invokedLLM = some true := by
  decide

/-- C1, amended. Only when the collaborator is not configured
(`use_llm = false`) does `get_user_choice` return a well-formed
in-range numeric input `n` directly, without invoking the
collaborator; when `use_llm` is true, every raw input — numeric or
not — is handed to the collaborator. -/
theorem C1_amended_numeric_fast_path :
    (∀ (llm : List String → String → LLMResult) (options : List String)
        (cat : ChoiceCategory) (k : Int) (s : String) (rest : List String),
        parseInt s = some k → 1 ≤ k → k ≤ (options.length : Int) →
        get_user_choice ⟨false, llm⟩ options cat (s :: rest) =
          some ⟨k.toNat, rest, false⟩) ∧
    (∀ (llm : List String → String → LLMResult) (options : List String)
        (cat : ChoiceCategory) (s : String) (rest : List String)
        (r : ChoiceResult),
        get_user_choice ⟨true, llm⟩ options cat (s :: rest) = some r →
        r.invokedLLM = true) := by
  constructor
  · intro llm options cat k s rest hs h1 h2
    simp [get_user_choice, get_numbered_choice, hs, h1, h2]
  · intro llm options cat s rest r h
    simp only [get_user_choice] at h
    split at h
    · split at h
      · exact absurd h (by simp)
      · cases h
        rfl
    · simp at *

/-- C1, witness for the amended statement: with `use_llm = false` the
numeric line `"2"` resolves to `2` directly, and with `use_llm = true`
a resolution always reports the collaborator as invoked. -/
theorem C1_amended_witness :
    get_user_choice ⟨false, fun _ _ => LLMResult.failure⟩ ["a", "b", "c"]
        ChoiceCategory.PATH ["2", "x"] = some ⟨2, ["x"], false⟩ ∧
    ChoiceResult.invokedLLM ⟨3, [], true⟩ = true :=
  ⟨C1_amended_numeric_fast_path.1 (fun _ _ => LLMResult.failure) ["a", "b", "c"]
      ChoiceCategory.PATH 2 "2" ["x"] (by decide) (by decide) (by decide),
   C1_amended_numeric_fast_path.2 (fun _ _ => LLMResult.reply "3") ["a", "b", "c"]
      ChoiceCategory.PATH "2" [] ⟨3, [], true⟩ (by decide)⟩

/-- C2. When the collaborator replies without raising and the reply
contains no token parseable as an in-range integer, the code returns
option `1` silently — the numeric re-prompt input (here `["5", "2"]`)
is left untouched — where the spec mandates falling back to
re-prompting. This is the divergence §9 of the spec flags as a bug. -/
theorem C2_silent_default_to_first :
    process_user_input_with_llm ["a", "b", "c"]
        (LLMResult.reply "I cannot tell which option") ["5", "2"] =
      some (1, ["5", "2"]) := by
  decide

/-- C4. `determine_ending_type` is a pure function of the entry
recorded for `scene_3`: states agreeing there get the same ending; a
recorded `1` yields Restoration, `2` Sacrifice, anything else Harmony;
no entry yields Unknown. -/
theorem C4_ending_pure_function :
    (∀ st st' : GameState,
        dictGet st.choices_made (sceneValue SceneType.SCENE_3) =
          dictGet st'.choices_made (sceneValue SceneType.SCENE_3) →
        determine_ending_type st = determine_ending_type st') ∧
    (∀ (st : GameState) (k : Nat),
        dictGet st.choices_made (sceneValue SceneType.SCENE_3) = some k →
        determine_ending_type st =
          (if k = 1 then EndingType.RESTORATION
           else if k = 2 then EndingType.SACRIFICE
           else EndingType.HARMONY)) ∧
    (∀ st : GameState,
        dictGet st.choices_made (sceneValue SceneType.SCENE_3) = none →
        determine_ending_type st = EndingType.UNKNOWN) := by
  refine ⟨?_, ?_, ?_⟩
  · intro st st' h
    unfold determine_ending_type
    rw [h]
  · intro st k h
    unfold determine_ending_type
    rw [h]
  · intro st h
    unfold determine_ending_type
    rw [h]

/-- C4, witness: the lookup table at concrete states, including that an
unrelated recorded choice (`("scene_1", 2)`) does not change the
ending. -/
theorem C4_witness :
    determine_ending_type ⟨[], [("scene_3", 3)], true, 1⟩ = EndingType.HARMONY ∧
    determine_ending_type initGameState = EndingType.UNKNOWN ∧
    determine_ending_type ⟨[], [("scene_1", 2), ("scene_3", 1)], true, 2⟩ =
      determine_ending_type ⟨[], [("scene_3", 1)], true, 1⟩ :=
  ⟨by have h := C4_ending_pure_function.2.1 ⟨[], [("scene_3", 3)], true, 1⟩ 3 (by decide)
      simpa using h,
   C4_ending_pure_function.2.2 initGameState (by decide),
   C4_ending_pure_function.1 ⟨[], [("scene_1", 2), ("scene_3", 1)], true, 2⟩
     ⟨[], [("scene_3", 1)], true, 1⟩ (by decide)⟩

/-- C5, Scenario A. With the collaborator disabled, the run
entry → path-choice 2 (lava tube) → answer-choice 3 (kin) →
action-choice 1 (chant) reaches the terminal scene and its ending
classification is Restoration. -/
theorem C5_scenario_A_restoration :
    reachedTerminal (run_playthrough noLLM 20 ["", "2", "3", "1"]) = true ∧
    endingOf (run_playthrough noLLM 20 ["", "2", "3", "1"]) =
      some EndingType.RESTORATION := by
  decide

/-- C9. If the drive loop's dispatch meets a scene identifier that is
not one of the registered `SceneType` members, the `else` branch
reports the anomaly and breaks: the run yields `unknownScene`
immediately (one loop iteration, regardless of fuel), it does not
reach the terminal scene (`reachedTerminal` is false), and no ending
classification is computed (`endingOf` is `none`). -/
theorem C9_unknown_scene_aborts :
    ∀ (env : Env) (fuel : Nat) (tag : String) (st : GameState)
      (inputs : List String),
      st.game_over = false →
      runFrom env (fuel + 1) (SceneRef.unknown tag) st inputs =
        some (RunOutcome.unknownScene tag st) ∧
      reachedTerminal (runFrom env (fuel + 1) (SceneRef.unknown tag) st inputs) =
        false ∧
      endingOf (runFrom env (fuel + 1) (SceneRef.unknown tag) st inputs) =
        none := by
  intro env fuel tag st inputs h
  have hrun : runFrom env (fuel + 1) (SceneRef.unknown tag) st inputs =
      some (RunOutcome.unknownScene tag st) := by
    simp [runFrom, h]
  exact ⟨hrun, by rw [hrun]; rfl, by rw [hrun]; rfl⟩

/-- C9, witness: the unregistered identifier `"bogus"` aborts a fresh
run. -/
theorem C9_witness :
    runFrom noLLM 1 (SceneRef.unknown "bogus") initGameState [] =
      some (RunOutcome.unknownScene "bogus" initGameState) ∧
    reachedTerminal (runFrom noLLM 1 (SceneRef.unknown "bogus") initGameState []) =
      false ∧
    endingOf (runFrom noLLM 1 (SceneRef.unknown "bogus") initGameState []) =
      none :=
  C9_unknown_scene_aborts noLLM 0 "bogus" initGameState [] rfl

/-- C10. Whatever index the answer resolves to, both riddle scenes
continue to `SCENE_3`: the answer never changes the successor scene
(and hence not the set of endings reachable afterwards, which depends
only on the successor and the later `scene_3` choice). -/
theorem C10_riddles_share_successor :
    ∀ (env : Env) (st : GameState) (inputs : List String),
      (∀ (sc : SceneType) (st' : GameState) (rest : List String),
          scene_2_ridge env st inputs = some (sc, st', rest) →
          sc = SceneType.SCENE_3) ∧
      (∀ (sc : SceneType) (st' : GameState) (rest : List String),
          scene_2_lava env st inputs = some (sc, st', rest) →
          sc = SceneType.SCENE_3) := by
  intro env st inputs
  constructor
  · intro sc st' rest h
    unfold scene_2_ridge at h
    split at h
    · cases h
    · cases h
      rfl
  · intro sc st' rest h
    unfold scene_2_lava at h
    split at h
    · cases h
    · cases h
      rfl

/-- C10, witness: concrete resolutions of both riddles (answer `2` at
the ridge, answer `1` in the lava tube) continue to `SCENE_3`. -/
theorem C10_witness :
    SceneType.SCENE_3 = SceneType.SCENE_3 ∧ SceneType.SCENE_3 = SceneType.SCENE_3 :=
  ⟨(C10_riddles_share_successor noLLM initGameState ["2"]).1 SceneType.SCENE_3
      (update_game_state initGameState SceneType.SCENE_2_RIDGE (some 2)) []
      (by decide),
   (C10_riddles_share_successor noLLM initGameState ["1"]).2 SceneType.SCENE_3
      (update_game_state initGameState SceneType.SCENE_2_LAVA (some 1)) []
      (by decide)⟩

/-- C7. If the replay decision of `end_game` resolves affirmatively
(`end_game` returns `True`, which happens exactly when the resolved
index is `1`), the state the next run starts from — `run_game` calls
`self.__init__()` at the top of each outer iteration, modelled by
`resetForNewRun` — has an empty visited set, an empty choices map,
story progress zero and `game_over` false. -/
theorem C7_replay_resets_state :
    ∀ (env : Env) (st : GameState) (inputs : List String) (e : EndingType)
      (rest : List String),
      end_game env st inputs = some (true, e, rest) →
      (∃ r : ChoiceResult,
          get_user_choice env end_game_options ChoiceCategory.PLAY_AGAIN inputs =
            some r ∧ r.choice = 1 ∧ rest = r.rest) ∧
      (resetForNewRun st).visited_locations = [] ∧
      (resetForNewRun st).choices_made = [] ∧
      (resetForNewRun st).story_progress = 0 ∧
      (resetForNewRun st).game_over = false := by
  intro env st inputs e rest h
  unfold end_game at h
  split at h
  · cases h
  next r heq =>
    simp only [Option.some.injEq, Prod.mk.injEq] at h
    exact ⟨⟨r, heq, of_decide_eq_true h.1, h.2.2.symm⟩, rfl, rfl, rfl, rfl⟩

/-- C7, witness: an affirmative replay (`"1"` typed at the prompt) on a
finished run's state, and the reset state's four properties. -/
theorem C7_witness :
    (∃ r : ChoiceResult,
        get_user_choice noLLM end_game_options ChoiceCategory.PLAY_AGAIN ["1"] =
          some r ∧ r.choice = 1 ∧ ([] : List String) = r.rest) ∧
    (resetForNewRun ⟨["intro"], [("scene_3", 1)], true, 4⟩).visited_locations = [] ∧
    (resetForNewRun ⟨["intro"], [("scene_3", 1)], true, 4⟩).choices_made = [] ∧
    (resetForNewRun ⟨["intro"], [("scene_3", 1)], true, 4⟩).story_progress = 0 ∧
    (resetForNewRun ⟨["intro"], [("scene_3", 1)], true, 4⟩).game_over = false :=
  C7_replay_resets_state noLLM ⟨["intro"], [("scene_3", 1)], true, 4⟩ ["1"]
    EndingType.RESTORATION [] (by decide)

/-- Soundness of the token scan: a found token is in range. -/
theorem firstValidToken_bounds :
    ∀ (n : Nat) (ws : List String) (k : Nat),
      firstValidToken n ws = some k → 1 ≤ k ∧ k ≤ n := by
  intro n ws
  induction ws with
  | nil => intro k h; cases h
  | cons w ws ih =>
    intro k h
    unfold firstValidToken at h
    split at h
    next j hj =>
      split at h
      next hin => cases h; exact hin
      next => exact ih k h
    next => exact ih k h

/-- Totality of the numbered-choice loop: if some line of the input is
a valid in-range number, the loop returns, and the returned index is
in range. -/
theorem get_numbered_choice_total :
    ∀ (options : List String) (inputs : List String),
      (∃ l ∈ inputs, validNumericFor options l = true) →
      ∃ k rest, get_numbered_choice options inputs = some (k, rest) ∧
        1 ≤ k ∧ k ≤ options.length := by
  intro options inputs
  induction inputs with
  | nil => rintro ⟨l, hl, _⟩; cases hl
  | cons s rest ih =>
    rintro ⟨l, hl, hv⟩
    unfold get_numbered_choice
    cases hs : parseInt s with
    | none =>
      simp only [hs]
      apply ih
      rcases List.mem_cons.mp hl with h | h
      · subst h
        unfold validNumericFor at hv
        rw [hs] at hv
        cases hv
      · exact ⟨l, h, hv⟩
    | some j =>
      simp only [hs]
      by_cases hj : 1 ≤ j ∧ j ≤ (options.length : Int)
      · rw [if_pos hj]
        exact ⟨j.toNat, rest, rfl, by omega, by omega⟩
      · rw [if_neg hj]
        apply ih
        rcases List.mem_cons.mp hl with h | h
        · subst h
          unfold validNumericFor at hv
          rw [hs] at hv
          exact absurd (of_decide_eq_true hv) hj
        · exact ⟨l, h, hv⟩

/-- C3. For every behaviour of the collaborator — absent
(`use_llm = false`), raising, or replying with an arbitrary string —
the resolution chain of `get_user_choice` terminates with a value in
`[1, len(options)]`, provided the option set is nonempty and the
input source is cooperative (some line after the first is a valid
in-range number). -/
theorem C3_resolution_total_in_range :
    ∀ (env : Env) (options : List String) (cat : ChoiceCategory)
      (inputs : List String),
      options ≠ [] →
      (∃ l ∈ inputs.tail, validNumericFor options l = true) →
      ∃ r : ChoiceResult, get_user_choice env options cat inputs = some r ∧
        1 ≤ r.choice ∧ r.choice ≤ options.length := by
  intro env options cat inputs hopts hcoop
  cases inputs with
  | nil => obtain ⟨l, hl, _⟩ := hcoop; cases hl
  | cons u rest =>
    obtain ⟨l, hl, hv⟩ := hcoop
    cases henv : env.use_llm with
    | false =>
      obtain ⟨k, rest', hres, h1, h2⟩ :=
        get_numbered_choice_total options (u :: rest)
          ⟨l, List.mem_cons_of_mem u hl, hv⟩
      exact ⟨⟨k, rest', false⟩, by simp [get_user_choice, henv, hres], h1, h2⟩
    | true =>
      cases hr : env.llm options u with
      | failure =>
        obtain ⟨k, rest', hres, h1, h2⟩ :=
          get_numbered_choice_total options rest ⟨l, hl, hv⟩
        refine ⟨⟨k, rest', true⟩, ?_, h1, h2⟩
        simp [get_user_choice, henv, process_user_input_with_llm, hr, hres]
      | reply c =>
        cases htok : firstValidToken options.length (splitWords c) with
        | some k =>
          have hb := firstValidToken_bounds options.length (splitWords c) k htok
          refine ⟨⟨k, rest, true⟩, ?_, hb.1, hb.2⟩
          simp [get_user_choice, henv, process_user_input_with_llm, hr, htok]
        | none =>
          refine ⟨⟨1, rest, true⟩, ?_, le_refl 1, List.length_pos.mpr hopts⟩
          simp [get_user_choice, henv, process_user_input_with_llm, hr, htok]

/-- C3, witness: a raising collaborator on a two-option set with a
cooperative source (`"junk"` then `"2"`). -/
theorem C3_witness :
    ∃ r : ChoiceResult,
      get_user_choice ⟨true, fun _ _ => LLMResult.failure⟩ ["a", "b"]
        ChoiceCategory.ACTION ["junk", "2"] = some r ∧
      1 ≤ r.choice ∧ r.choice ≤ (["a", "b"] : List String).length :=
  C3_resolution_total_in_range ⟨true, fun _ _ => LLMResult.failure⟩ ["a", "b"]
    ChoiceCategory.ACTION ["junk", "2"] (by decide)
    ⟨"2", by decide, by decide⟩

/-- C6, Scenario C. With the collaborator disabled, a run that asks for
more info (path-choice 3), then takes any sub-choice `m ∈ 1..2`, any
riddle answer `a ∈ 1..3`, negotiates (action-choice 3) and picks any
negotiation line `n ∈ 1..3`, reaches the terminal scene with ending
classification Harmony. -/
theorem C6_scenario_C_harmony :
    ∀ m a n : Nat, 1 ≤ m → m ≤ 2 → 1 ≤ a → a ≤ 3 → 1 ≤ n → n ≤ 3 →
      reachedTerminal (run_playthrough noLLM 20
          ["", "3", toString m, toString a, "3", toString n]) = true ∧
      endingOf (run_playthrough noLLM 20
          ["", "3", toString m, toString a, "3", toString n]) =
        some EndingType.HARMONY := by
  intro m a n hm1 hm2 ha1 ha2 hn1 hn2
  interval_cases m <;> interval_cases a <;> interval_cases n <;>
    exact ⟨by decide, by decide⟩

/-- C6, witness: the concrete instance `m = 2`, `a = 1`, `n = 3`. -/
theorem C6_witness :
    reachedTerminal (run_playthrough noLLM 20
        ["", "3", toString 2, toString 1, "3", toString 3]) = true ∧
    endingOf (run_playthrough noLLM 20
        ["", "3", toString 2, toString 1, "3", toString 3]) =
      some EndingType.HARMONY :=
  C6_scenario_C_harmony 2 1 3 (by decide) (by decide) (by decide) (by decide)
    (by decide) (by decide)

/-- A digit-word head of the token list that is in range is the found
token. -/
theorem firstValidToken_digit_head (n k : Nat) (w : String) (ws : List String)
    (hw : parseDigits w.data = some k) (h1 : 1 ≤ k) (hn : k ≤ n) :
    firstValidToken n (w :: ws) = some k := by
  simp [firstValidToken, hw, h1, hn]

/-- The echoing collaborator — reply verbatim with the utterance —
satisfies `ResolvesNumerals`. -/
theorem echo_resolves : ResolvesNumerals (fun _ u => LLMResult.reply u) := by
  intro options k inputs h1 h3 hlen
  have hsplit : splitWords (toString k) = [toString k] := by
    interval_cases k <;> decide
  have hdig : parseDigits (toString k).data = some k := by
    interval_cases k <;> decide
  simp only [process_user_input_with_llm, hsplit,
    firstValidToken_digit_head options.length k (toString k) [] hdig h1 hlen]

/-- With `use_llm = false`, a numeral line for an in-range index `k`
(`k ≤ 3` covers every option set of the game) resolves to `k`,
consuming exactly that line. -/
theorem guc_disabled_numeral (llm : List String → String → LLMResult)
    (options : List String) (cat : ChoiceCategory) (k : Nat)
    (rest : List String) (h1 : 1 ≤ k) (h3 : k ≤ 3)
    (hlen : k ≤ options.length) :
    get_user_choice ⟨false, llm⟩ options cat (toString k :: rest) =
      some ⟨k, rest, false⟩ := by
  have hk : parseInt (toString k) = some (k : Int) := by
    interval_cases k <;> decide
  have hc : 1 ≤ (k : Int) ∧ (k : Int) ≤ (options.length : Int) := by
    constructor
    · exact_mod_cast h1
    · exact_mod_cast hlen
  simp [get_user_choice, get_numbered_choice, hk, hc]

/-- With `use_llm = true` and a collaborator satisfying
`ResolvesNumerals`, a numeral line for an in-range index `k` resolves
to `k`, consuming exactly that line. -/
theorem guc_enabled_numeral (llm : List String → String → LLMResult)
    (hllm : ResolvesNumerals llm) (options : List String)
    (cat : ChoiceCategory) (k : Nat) (rest : List String) (h1 : 1 ≤ k)
    (h3 : k ≤ 3) (hlen : k ≤ options.length) :
    get_user_choice ⟨true, llm⟩ options cat (toString k :: rest) =
      some ⟨k, rest, true⟩ := by
  simp [get_user_choice, hllm options k rest h1 h3 hlen]

/-- Lockstep simulation behind Scenario D: from any scene other than
the entry (whose extra "press Enter" line is handled in
`C8_disabled_enabled_equiv`), a disabled-collaborator run and an
enabled run whose collaborator resolves each numeral utterance to its
index produce identical outcomes on the same admissible index
sequence, typed as numeral lines. -/
theorem C8_run_sim :
    ∀ (fuel : Nat) (llmA llmB : List String → String → LLMResult),
      ResolvesNumerals llmB →
      ∀ (scene : SceneRef) (st : GameState) (ks : List Nat),
        scene ≠ SceneRef.known SceneType.INTRO →
        scriptOK fuel scene ks = true →
        runFrom ⟨false, llmA⟩ fuel scene st (ks.map toString) =
          runFrom ⟨true, llmB⟩ fuel scene st (ks.map toString) := by
  intro fuel
  induction fuel with
  | zero => intro llmA llmB hB scene st ks hni hOK; rfl
  | succ n ih =>
    intro llmA llmB hB scene st ks hni hOK
    cases hgo : st.game_over with
    | true => simp [runFrom, hgo]
    | false =>
      cases scene with
      | unknown t => simp [runFrom, hgo]
      | known s =>
        cases s with
        | INTRO => exact absurd rfl hni
        | SCENE_1 =>
          cases ks with
          | nil =>
            simp [runFrom, hgo, scene_1, get_user_choice, get_numbered_choice]
          | cons k ks2 =>
            simp only [scriptOK, Bool.and_eq_true, decide_eq_true_eq] at hOK
            obtain ⟨⟨h1, h3⟩, hrest⟩ := hOK
            have hlen : k ≤ scene_1_options.length := h3
            have hA := guc_disabled_numeral llmA scene_1_options
              ChoiceCategory.PATH k (ks2.map toString) h1 h3 hlen
            have hBk := guc_enabled_numeral llmB hB scene_1_options
              ChoiceCategory.PATH k (ks2.map toString) h1 h3 hlen
            simp only [runFrom, hgo, List.map_cons, scene_1, hA, hBk]
            exact ih llmA llmB hB _ _ ks2 (by split <;> (try split) <;> simp) hrest
        | SCENE_1_MORE_INFO =>
          cases ks with
          | nil =>
            simp [runFrom, hgo, scene_1_more_info, get_user_choice,
              get_numbered_choice]
          | cons k ks2 =>
            simp only [scriptOK, Bool.and_eq_true, decide_eq_true_eq] at hOK
            obtain ⟨⟨h1, h2⟩, hrest⟩ := hOK
            have h3 : k ≤ 3 := by omega
            have hlen : k ≤ scene_1_more_info_options.length := h2
            have hA := guc_disabled_numeral llmA scene_1_more_info_options
              ChoiceCategory.PATH k (ks2.map toString) h1 h3 hlen
            have hBk := guc_enabled_numeral llmB hB scene_1_more_info_options
              ChoiceCategory.PATH k (ks2.map toString) h1 h3 hlen
            simp only [runFrom, hgo, List.map_cons, scene_1_more_info, hA, hBk]
            exact ih llmA llmB hB _ _ ks2 (by split <;> simp) hrest
        | SCENE_2_RIDGE =>
          cases ks with
          | nil =>
            simp [runFrom, hgo, scene_2_ridge, get_user_choice,
              get_numbered_choice]
          | cons k ks2 =>
            simp only [scriptOK, Bool.and_eq_true, decide_eq_true_eq] at hOK
            obtain ⟨⟨h1, h3⟩, hrest⟩ := hOK
            have hlen : k ≤ scene_2_ridge_options.length := h3
            have hA := guc_disabled_numeral llmA scene_2_ridge_options
              ChoiceCategory.ANSWER k (ks2.map toString) h1 h3 hlen
            have hBk := guc_enabled_numeral llmB hB scene_2_ridge_options
              ChoiceCategory.ANSWER k (ks2.map toString) h1 h3 hlen
            simp only [runFrom, hgo, List.map_cons, scene_2_ridge, hA, hBk]
            exact ih llmA llmB hB _ _ ks2 (by simp) hrest
        | SCENE_2_LAVA =>
          cases ks with
          | nil =>
            simp [runFrom, hgo, scene_2_lava, get_user_choice,
              get_numbered_choice]
          | cons k ks2 =>
            simp only [scriptOK, Bool.and_eq_true, decide_eq_true_eq] at hOK
            obtain ⟨⟨h1, h3⟩, hrest⟩ := hOK
            have hlen : k ≤ scene_2_lava_options.length := h3
            have hA := guc_disabled_numeral llmA scene_2_lava_options
              ChoiceCategory.ANSWER k (ks2.map toString) h1 h3 hlen
            have hBk := guc_enabled_numeral llmB hB scene_2_lava_options
              ChoiceCategory.ANSWER k (ks2.map toString) h1 h3 hlen
            simp only [runFrom, hgo, List.map_cons, scene_2_lava, hA, hBk]
            exact ih llmA llmB hB _ _ ks2 (by simp) hrest
        | SCENE_3 =>
          cases ks with
          | nil =>
            simp [runFrom, hgo, scene_3, get_user_choice, get_numbered_choice]
          | cons k ks2 =>
            simp only [scriptOK, Bool.and_eq_true, decide_eq_true_eq] at hOK
            obtain ⟨⟨h1, h3⟩, hrest⟩ := hOK
            have hlen : k ≤ scene_3_options.length := h3
            have hA := guc_disabled_numeral llmA scene_3_options
              ChoiceCategory.ACTION k (ks2.map toString) h1 h3 hlen
            have hBk := guc_enabled_numeral llmB hB scene_3_options
              ChoiceCategory.ACTION k (ks2.map toString) h1 h3 hlen
            simp only [runFrom, hgo, List.map_cons, scene_3, hA, hBk]
            exact ih llmA llmB hB _ _ ks2 (by split <;> (try split) <;> simp) hrest
        | SCENE_3_NEGOTIATE =>
          cases ks with
          | nil =>
            simp [runFrom, hgo, scene_3_negotiate, get_user_choice,
              get_numbered_choice]
          | cons k ks2 =>
            simp only [scriptOK, Bool.and_eq_true, decide_eq_true_eq] at hOK
            obtain ⟨⟨h1, h3⟩, hrest⟩ := hOK
            have hlen : k ≤ scene_3_negotiate_options.length := h3
            have hA := guc_disabled_numeral llmA scene_3_negotiate_options
              ChoiceCategory.NEGOTIATION k (ks2.map toString) h1 h3 hlen
            have hBk := guc_enabled_numeral llmB hB scene_3_negotiate_options
              ChoiceCategory.NEGOTIATION k (ks2.map toString) h1 h3 hlen
            simp only [runFrom, hgo, List.map_cons, scene_3_negotiate, hA, hBk]
            exact ih llmA llmB hB _ _ ks2 (by simp) hrest
        | FINAL_RESTORE =>
          simp only [scriptOK] at hOK
          simp only [runFrom, hgo, final_scene_restore]
          exact ih llmA llmB hB _ _ ks (by simp) hOK
        | FINAL_SHATTER =>
          simp only [scriptOK] at hOK
          simp only [runFrom, hgo, final_scene_shatter]
          exact ih llmA llmB hB _ _ ks (by simp) hOK
        | FINAL_NEGOTIATE =>
          simp only [scriptOK] at hOK
          simp only [runFrom, hgo, final_scene_negotiate]
          exact ih llmA llmB hB _ _ ks (by simp) hOK
        | END =>
          cases ks with
          | nil =>
            simp [runFrom, hgo, end_game, get_user_choice, get_numbered_choice]
          | cons k ks2 =>
            simp only [scriptOK, Bool.and_eq_true, decide_eq_true_eq] at hOK
            obtain ⟨h1, h2⟩ := hOK
            have h3 : k ≤ 3 := by omega
            have hlen : k ≤ end_game_options.length := h2
            have hA := guc_disabled_numeral llmA end_game_options
              ChoiceCategory.PLAY_AGAIN k (ks2.map toString) h1 h3 hlen
            have hBk := guc_enabled_numeral llmB hB end_game_options
              ChoiceCategory.PLAY_AGAIN k (ks2.map toString) h1 h3 hlen
            simp [runFrom, hgo, List.map_cons, end_game, hA, hBk]

/-- First step of a playthrough: the entry scene consumes one "press
Enter" line and moves to `SCENE_1`. -/
theorem runFrom_intro_step (env : Env) (fuel : Nat) (st : GameState)
    (l : String) (inputs : List String) (hgo : st.game_over = false) :
    runFrom env (fuel + 1) (SceneRef.known SceneType.INTRO) st (l :: inputs) =
      runFrom env fuel (SceneRef.known SceneType.SCENE_1)
        (update_game_state st SceneType.INTRO none) inputs := by
  simp [runFrom, hgo, intro_scene]

/-- C8, Scenario D. For every admissible sequence of chosen indices
`ks`, a playthrough with the collaborator disabled and the indices
typed at the numeric prompts is identical — same outcome, hence same
visited-scene sequence, same recorded choices and same ending
classification — to a playthrough with the collaborator enabled in
which the collaborator resolves each decision to the same index. -/
theorem C8_disabled_enabled_equiv :
    ∀ (llmA llmB : List String → String → LLMResult) (ks : List Nat)
      (fuel : Nat),
      ResolvesNumerals llmB →
      scriptOK fuel (SceneRef.known SceneType.SCENE_1) ks = true →
      run_playthrough ⟨false, llmA⟩ (fuel + 1) ("" :: ks.map toString) =
        run_playthrough ⟨true, llmB⟩ (fuel + 1) ("" :: ks.map toString) ∧
      ∀ stA stB : GameState,
        run_playthrough ⟨false, llmA⟩ (fuel + 1) ("" :: ks.map toString) =
          some (RunOutcome.finished stA) →
        run_playthrough ⟨true, llmB⟩ (fuel + 1) ("" :: ks.map toString) =
          some (RunOutcome.finished stB) →
        stA.visited_locations = stB.visited_locations ∧
        stA.choices_made = stB.choices_made ∧
        determine_ending_type stA = determine_ending_type stB := by
  intro llmA llmB ks fuel hB hOK
  have hmain :
      run_playthrough ⟨false, llmA⟩ (fuel + 1) ("" :: ks.map toString) =
        run_playthrough ⟨true, llmB⟩ (fuel + 1) ("" :: ks.map toString) := by
    unfold run_playthrough
    rw [runFrom_intro_step ⟨false, llmA⟩ fuel initGameState "" (ks.map toString) rfl,
      runFrom_intro_step ⟨true, llmB⟩ fuel initGameState "" (ks.map toString) rfl]
    exact C8_run_sim fuel llmA llmB hB (SceneRef.known SceneType.SCENE_1)
      (update_game_state initGameState SceneType.INTRO none) ks (by simp) hOK
  refine ⟨hmain, ?_⟩
  intro stA stB hA hB'
  rw [hmain] at hA
  rw [hA] at hB'
  cases hB'
  exact ⟨rfl, rfl, rfl⟩

/-- C8, witness: the index sequence `[2, 3, 1]` (Scenario A's choices),
with a raising collaborator on the disabled side and the echoing
collaborator on the enabled side. -/
theorem C8_witness :
    run_playthrough ⟨false, fun _ _ => LLMResult.failure⟩ 11
        ("" :: ([2, 3, 1] : List Nat).map toString) =
      run_playthrough ⟨true, fun _ u => LLMResult.reply u⟩ 11
        ("" :: ([2, 3, 1] : List Nat).map toString) :=
  (C8_disabled_enabled_equiv (fun _ _ => LLMResult.failure)
    (fun _ u => LLMResult.reply u) [2, 3, 1] 10 echo_resolves (by decide)).1
